import Mathlib

/-!
Verification development for the fresh-eats-monoroe repository: two
single-page client applications (a customer storefront browser in
src/frontend/src/App.jsx and an admin product-entry panel in
src/admin/src/App.jsx) that bind to a hosted document database
(Firestore) and an authentication service.

Each app is embedded as a deterministic state machine: the React
component state (useState hooks) becomes a Lean structure, and the
asynchronous callbacks (initialization outcome, auth-state changes,
snapshot delivery, snapshot errors, form input, form submission with its
external outcome) become events of a step function. React effect
semantics are folded into the step function:

* an effect body runs after the render that follows a change of one of
  its dependencies, so a state change that alters an effect dependency
  is modelled atomically with the resulting effect run / cleanup;
* the customer app data-fetch effect has dependency list [authReady];
  since authReady is set at most once (false to true) the effect body
  runs with authReady = true at most once, which the effectRun event
  guard (not everSubscribed) captures;
* the admin listener effect has dependency list
  [isAuthReady, userId, error]; when error becomes non-null the cleanup
  unsubscribes and the re-run is blocked by the error guard, so the
  events that set error also clear the subscribed flag;
* per the Firestore onSnapshot contract, after the error callback fires
  the listener delivers no further events, so the snapshotError events
  also clear the subscribed flag.

The addDoc calls issued by the admin app are recorded in a call log
(calls), including calls that the backend subsequently rejects.
-/

namespace FreshEats

/-- Code-point lexicographic comparison of character lists, used to model
the comparator (a.name or empty).localeCompare(b.name or empty) of the
customer app's in-memory sort (src/frontend/src/App.jsx line 83);
localeCompare is modelled as code-point order. -/
def charListLeb : List Char → List Char → Bool
  | [], _ => true
  | _ :: _, [] => false
  | a :: as, b :: bs =>
      if a.toNat < b.toNat then true
      else if b.toNat < a.toNat then false
      else charListLeb as bs

/-- String comparison on the underlying character lists. -/
def strLeb (a b : String) : Bool := charListLeb a.data b.data

/-- A store document as rendered by the customer app: document id plus the
fields of doc.data(); every data field may be absent from a document. -/
structure StoreDoc where
  id : String
  name : Option String
  category : Option String
  description : Option String
  rating : Option ℚ
  deliveryTime : Option ℚ
deriving DecidableEq

/-- Sort key for stores: (a.name or empty string), per
(a.name or empty).localeCompare in src/frontend/src/App.jsx line 83. -/
def storeKey (a : StoreDoc) : String := a.name.getD ""

/-- The customer app's store comparator as an order relation:
ascending lexicographic by name. -/
def storeOrder (a b : StoreDoc) : Prop := strLeb (storeKey a) (storeKey b) = true

instance : DecidableRel storeOrder := fun a b =>
  inferInstanceAs (Decidable (strLeb (storeKey a) (storeKey b) = true))

/-- The in-memory sort fetchedStores.sort(...) of the customer app. -/
def sortStores (docs : List StoreDoc) : List StoreDoc :=
  List.insertionSort storeOrder docs

/-- A product document as rendered by the admin app: document id plus the
fields of doc.data(); createdAt is kept as its toMillis value. -/
structure ProductDoc where
  id : String
  name : Option String
  description : Option String
  price : Option ℚ
  category : Option String
  available : Option Bool
  createdAt : Option ℤ
  createdBy : Option String
deriving DecidableEq

/-- Sort key for products: (x.createdAt or 0 when absent), per
(b.createdAt?.toMillis() or 0) in src/admin/src/App.jsx line 129. -/
def productKey (a : ProductDoc) : ℤ := a.createdAt.getD 0

/-- The admin app's product comparator as an order relation: descending by
creation time (comparator (b.key) - (a.key) puts larger keys first). -/
def productOrder (a b : ProductDoc) : Prop := productKey b ≤ productKey a

instance : DecidableRel productOrder := fun a b =>
  inferInstanceAs (Decidable (productKey b ≤ productKey a))

/-- The in-memory sort productList.sort(...) of the admin app. -/
def sortProducts (docs : List ProductDoc) : List ProductDoc :=
  List.insertionSort productOrder docs

/-! ## Customer app (src/frontend/src/App.jsx) -/

/-- The React component state of the customer app, together with the
derived machine flags: dbInit records that firebaseRef.current.db has been
set (line 36), subscribed that an onSnapshot listener is currently open,
everSubscribed that the data-fetch effect body has already run with
authReady true (its dependency list is [authReady], and authReady is only
ever set to true, so that body runs at most once). -/
structure FrontendState where
  stores : List StoreDoc
  isLoading : Bool
  error : Option String
  authReady : Bool
  userId : Option String
  dbInit : Bool
  subscribed : Bool
  everSubscribed : Bool
deriving DecidableEq

/-- Initial state of the customer app component (lines 14-18). -/
def initF : FrontendState :=
  { stores := [], isLoading := true, error := none, authReady := false,
    userId := none, dbInit := false, subscribed := false,
    everSubscribed := false }

/-- Events of the customer app machine. initConfigFail: the firebaseConfig
object is empty, so initFirebase throws before initializing anything
(lines 29-31 then the catch). initOk: initializeApp/getAuth/getFirestore
succeed and firebaseRef.current is set (lines 33-36). authCb u: the
onAuthStateChanged callback fires with user u (lines 39-46). signInFail:
signInWithCustomToken / signInAnonymously rejects after initialization
succeeded, landing in the same catch (lines 49-60). effectRun: the
data-fetch effect body runs (lines 69-95). snapshot / snapshotError: the
onSnapshot success / error callback fires (lines 77-91). -/
inductive FEvent where
  | initConfigFail
  | initOk
  | authCb (u : Option String)
  | signInFail (msg : String)
  | effectRun
  | snapshot (docs : List StoreDoc)
  | snapshotError
deriving DecidableEq

/-- One step of the customer app machine. -/
def stepF (s : FrontendState) : FEvent → FrontendState
  | .initConfigFail =>
      { s with error := some "Initialization Failed: Firebase configuration is missing.",
               isLoading := false, authReady := true }
  | .initOk => { s with dbInit := true }
  | .authCb u => { s with userId := u, authReady := true }
  | .signInFail msg =>
      { s with error := some ("Initialization Failed: " ++ msg),
               isLoading := false, authReady := true }
  | .effectRun =>
      if s.authReady ∧ s.dbInit ∧ ¬ s.everSubscribed then
        { s with subscribed := true, everSubscribed := true }
      else s
  | .snapshot docs =>
      if s.subscribed then
        { s with stores := sortStores docs, isLoading := false }
      else s
  | .snapshotError =>
      if s.subscribed then
        { s with error := some "Failed to fetch store catalog. Check Firestore Rules.",
                 isLoading := false, subscribed := false }
      else s

/-- Run the customer app machine over a list of events. -/
def runF (s : FrontendState) (evs : List FEvent) : FrontendState :=
  evs.foldl stepF s

/-! ## Admin app (src/admin/src/App.jsx) -/

/-- The locally owned draft product (newProduct state, lines 59-64). -/
structure Draft where
  name : String
  description : String
  price : ℚ
  category : String
deriving DecidableEq

/-- The empty draft defaults: set initially (lines 59-64) and restored
after a successful submission (line 184). -/
def emptyDraft : Draft :=
  { name := "", description := "", price := 0, category := "Main Dish" }

/-- One form-input change (handleInputChange, lines 149-155): a single
field of the draft is replaced; for the numeric price field the raw input
is already coerced by parseFloat(value) or 0. -/
inductive DraftEdit where
  | name (v : String)
  | description (v : String)
  | price (v : ℚ)
  | category (v : String)
deriving DecidableEq

/-- Apply one input change to the draft. -/
def applyEdit (d : Draft) : DraftEdit → Draft
  | .name v => { d with name := v }
  | .description v => { d with description := v }
  | .price v => { d with price := v }
  | .category v => { d with category := v }

/-- Models parseFloat(p.toFixed(2)) (line 178): rounding to two decimal
places, up to binary floating-point representation of the source. -/
def round2 (p : ℚ) : ℚ := round (p * 100) / 100

/-- The document payload passed to addDoc (lines 176-182): the draft
fields, price coerced to two decimals, an available flag set to true, a
serverTimestamp() sentinel for createdAt, and the current user id. -/
structure Payload where
  name : String
  description : String
  price : ℚ
  category : String
  available : Bool
  createdAtIsServerTimestamp : Bool
  createdBy : String
deriving DecidableEq

/-- The payload built by handleSubmit from the draft and the user id. -/
def mkPayload (d : Draft) (uid : String) : Payload :=
  { name := d.name, description := d.description, price := round2 d.price,
    category := d.category, available := true,
    createdAtIsServerTimestamp := true, createdBy := uid }

/-- The local validation error message (line 168). -/
def validationMsg : String :=
  "Product name is required and price must be greater than 0."

/-- The mock-configuration write-denied message (line 162). -/
def mockDeniedMsg : String :=
  "Write operation denied: Cannot write to Firestore when using the external mock configuration. Data saving only works inside Canvas."

/-- The React component state of the admin app plus derived machine
state: dbInit records that the module-level db handle was set (line 80),
subscribed that an onSnapshot listener is currently open, and calls logs
every addDoc call issued (whether or not the backend accepts it). -/
structure AdminState where
  products : List ProductDoc
  loading : Bool
  isAuthReady : Bool
  userId : Option String
  error : Option String
  newProduct : Draft
  isSubmitting : Bool
  dbInit : Bool
  subscribed : Bool
  calls : List Payload
deriving DecidableEq

/-- Initial state of the admin app component (lines 52-65). -/
def initA : AdminState :=
  { products := [], loading := true, isAuthReady := false, userId := none,
    error := none, newProduct := emptyDraft, isSubmitting := false,
    dbInit := false, subscribed := false, calls := [] }

/-- Outcome of the external addDoc call awaited by handleSubmit. -/
inductive SubmitRes where
  | success
  | failure (msg : String)
deriving DecidableEq

/-- Events of the admin app machine. initErr: initialization fails, either
the missing-projectId check (lines 72-76) or the catch around
initializeApp/getFirestore/getAuth (lines 107-111); dbSet records whether
the db handle had already been assigned when the failure hit. initOk: the
three setup calls succeed (lines 79-81). authUser uid: onAuthStateChanged
fires with a signed-in user (lines 85-86). authNullReady: the callback
fires with no user and the attempted sign-in succeeds, so only
setIsAuthReady(true) runs here (the signed-in user arrives as a later
authUser event). authSignInFail uid: the attempted sign-in rejects and the
catch substitutes a locally generated placeholder id, uid standing for
crypto.randomUUID() (lines 96-101), then setIsAuthReady(true) runs.
effectRun: the listener effect body runs (lines 115-145). snapshot /
snapshotError: the onSnapshot success / error callback fires
(lines 123-141). input: one handleInputChange call. submit res: one
handleSubmit invocation whose external addDoc call, if reached, has
outcome res (lines 157-191). -/
inductive AEvent where
  | initErr (msg : String) (dbSet : Bool)
  | initOk
  | authUser (uid : String)
  | authNullReady
  | authSignInFail (uid : String)
  | effectRun
  | snapshot (docs : List ProductDoc)
  | snapshotError (msg : String)
  | input (e : DraftEdit)
  | submit (res : SubmitRes)
deriving DecidableEq

/-- The guard of line 160 in the negative: handleSubmit reaches the
validation check exactly when none of isSubmitting, missing db, missing
userId, not-ready, pending error, fallback-config holds. -/
def canWrite (fallback : Bool) (s : AdminState) : Prop :=
  s.isSubmitting = false ∧ s.dbInit = true ∧ s.userId.isSome = true ∧
  s.isAuthReady = true ∧ s.error = none ∧ fallback = false

instance (fallback : Bool) (s : AdminState) : Decidable (canWrite fallback s) :=
  inferInstanceAs (Decidable (_ ∧ _ ∧ _ ∧ _ ∧ _ ∧ _))

/-- One handleSubmit invocation (lines 157-191). The fallback parameter is
the module-level fact firebaseConfig === FALLBACK_FIREBASE_CONFIG. Events
that set error also clear subscribed: the listener effect's dependency
list contains error, so its cleanup unsubscribes and the re-run is blocked
by the error guard. -/
def handleSubmit (fallback : Bool) (s : AdminState) (res : SubmitRes) : AdminState :=
  if ¬ canWrite fallback s then
    if fallback then { s with error := some mockDeniedMsg, subscribed := false }
    else s
  else if s.newProduct.name = "" ∨ s.newProduct.price ≤ 0 then
    { s with error := some validationMsg, subscribed := false }
  else
    match res with
    | .success =>
        { s with error := none, isSubmitting := false,
                 calls := s.calls ++ [mkPayload s.newProduct (s.userId.getD "")],
                 newProduct := emptyDraft }
    | .failure msg =>
        { s with isSubmitting := false,
                 calls := s.calls ++ [mkPayload s.newProduct (s.userId.getD "")],
                 error := some ("Failed to add product: " ++ msg ++ ". Check your Firebase rules."),
                 subscribed := false }

/-- One step of the admin app machine. -/
def stepA (fallback : Bool) (s : AdminState) : AEvent → AdminState
  | .initErr msg dbSet =>
      { s with error := some msg, isAuthReady := true, dbInit := dbSet }
  | .initOk => { s with dbInit := true }
  | .authUser uid => { s with userId := some uid, isAuthReady := true }
  | .authNullReady => { s with isAuthReady := true }
  | .authSignInFail uid => { s with userId := some uid, isAuthReady := true }
  | .effectRun =>
      if s.isAuthReady ∧ s.dbInit ∧ s.userId.isSome ∧ s.error = none ∧ ¬ s.subscribed then
        { s with subscribed := true }
      else s
  | .snapshot docs =>
      if s.subscribed then
        { s with products := sortProducts docs, loading := false }
      else s
  | .snapshotError msg =>
      if s.subscribed then
        { s with error := some ("Real-time data error: " ++ msg ++ ". Please verify Firestore rules."),
                 loading := false, subscribed := false }
      else s
  | .input e => { s with newProduct := applyEdit s.newProduct e }
  | .submit res => handleSubmit fallback s res

/-- Run the admin app machine over a list of events. -/
def runA (fallback : Bool) (s : AdminState) (evs : List AEvent) : AdminState :=
  evs.foldl (stepA fallback) s

/-- The disabled attribute of the admin submit button (line 265):
isSubmitting, not isAuthReady, no userId, or the fallback config. -/
def submitDisabled (fallback : Bool) (s : AdminState) : Bool :=
  s.isSubmitting || !s.isAuthReady || !s.userId.isSome || fallback

/-- The customer app state reached right after the onSnapshot error
callback fires on top of an arbitrary event history. -/
def afterErrF (evs0 : List FEvent) : FrontendState :=
  stepF (runF initF evs0) .snapshotError

/-- The admin app state reached right after the onSnapshot error callback
fires with message msg on top of an arbitrary event history. -/
def afterErrA (fb : Bool) (evs0 : List AEvent) (msg : String) : AdminState :=
  stepA fb (runA fb initA evs0) (.snapshotError msg)

/-- What a subscription error leaves behind in the customer app: the
Firestore-rules error message, loading cleared, and finality — no later
event sequence changes the rendered store list or leaves the error
state. -/
def frontErrOutcome (evs0 : List FEvent) : Prop :=
  (afterErrF evs0).error = some "Failed to fetch store catalog. Check Firestore Rules." ∧
  (afterErrF evs0).isLoading = false ∧
  ∀ evs : List FEvent,
    (runF (afterErrF evs0) evs).stores = (afterErrF evs0).stores ∧
    (runF (afterErrF evs0) evs).error.isSome = true

/-- What a subscription error leaves behind in the admin app: the
verify-Firestore-rules error message, loading cleared, and finality — no
later event sequence changes the rendered product list or leaves the
error state. -/
def adminErrOutcome (fb : Bool) (evs0 : List AEvent) (msg : String) : Prop :=
  (afterErrA fb evs0 msg).error =
      some ("Real-time data error: " ++ msg ++ ". Please verify Firestore rules.") ∧
  (afterErrA fb evs0 msg).loading = false ∧
  ∀ evs : List AEvent,
    (runA fb (afterErrA fb evs0 msg) evs).products = (afterErrA fb evs0 msg).products ∧
    (runA fb (afterErrA fb evs0 msg) evs).error.isSome = true

/-- Spec scenario store: Zeta Mart, rating 4.0, deliveryTime 30. -/
def storeZeta : StoreDoc :=
  { id := "s1", name := some "Zeta Mart", category := some "Food",
    description := some "d", rating := some 4, deliveryTime := some 30 }

/-- Spec scenario store: Alpha Deli, rating 4.5, deliveryTime 20. -/
def storeAlpha : StoreDoc :=
  { id := "s2", name := some "Alpha Deli", category := some "Food",
    description := some "d", rating := some (9 / 2), deliveryTime := some 20 }

/-- A customer-app state with an open subscription, reached by a normal
startup trace. -/
def fReady : FrontendState :=
  runF initF [FEvent.initOk, FEvent.authCb (some "u1"), FEvent.effectRun]

/-- An admin-app state with an open subscription (real configuration),
reached by a normal startup trace. -/
def aReady : AdminState :=
  runA false initA [AEvent.initOk, AEvent.authUser "admin-1", AEvent.effectRun]

/-- An admin-app state ready to submit a valid draft. -/
def aDraftReady : AdminState :=
  { initA with isAuthReady := true, userId := some "admin-1", dbInit := true,
               newProduct := { name := "Burger", description := "Tasty",
                               price := 5, category := "Main Dish" } }

/-- An admin-app state holding an invalid draft (empty name). -/
def aDraftInvalid : AdminState :=
  { initA with isAuthReady := true, userId := some "admin-1", dbInit := true,
               newProduct := { emptyDraft with price := 3 } }

/-! ## Facts about the two comparators -/

/-- Code-point lexicographic comparison is total. -/
theorem charListLeb_total : ∀ xs ys : List Char,
    charListLeb xs ys = true ∨ charListLeb ys xs = true
  | [], _ => Or.inl rfl
  | _ :: _, [] => Or.inr rfl
  | a :: as, b :: bs => by
      simp only [charListLeb]
      rcases Nat.lt_trichotomy a.toNat b.toNat with h | h | h
      · left
        simp [h]
      · have h1 : ¬ a.toNat < b.toNat := by omega
        have h2 : ¬ b.toNat < a.toNat := by omega
        simpa [h1, h2] using charListLeb_total as bs
      · right
        simp [h]

/-- Code-point lexicographic comparison is transitive. -/
theorem charListLeb_trans : ∀ xs ys zs : List Char,
    charListLeb xs ys = true → charListLeb ys zs = true →
    charListLeb xs zs = true
  | [], _, _, _, _ => rfl
  | _ :: _, [], _, h1, _ => by simp [charListLeb] at h1
  | _ :: _, _ :: _, [], _, h2 => by simp [charListLeb] at h2
  | a :: as, b :: bs, c :: cs, h1, h2 => by
      simp only [charListLeb] at h1 h2 ⊢
      rcases Nat.lt_trichotomy a.toNat b.toNat with hab | hab | hab
      · rcases Nat.lt_trichotomy b.toNat c.toNat with hbc | hbc | hbc
        · simp [show a.toNat < c.toNat by omega]
        · simp [show a.toNat < c.toNat by omega]
        · simp [show ¬ b.toNat < c.toNat by omega, hbc] at h2
      · rcases Nat.lt_trichotomy b.toNat c.toNat with hbc | hbc | hbc
        · simp [show a.toNat < c.toNat by omega]
        · simp only [show ¬ a.toNat < b.toNat by omega, if_false,
            show ¬ b.toNat < a.toNat by omega, if_neg, ite_false] at h1
          simp only [show ¬ b.toNat < c.toNat by omega, if_false,
            show ¬ c.toNat < b.toNat by omega, if_neg, ite_false] at h1 h2
          simp only [show ¬ a.toNat < c.toNat by omega, if_false,
            show ¬ c.toNat < a.toNat by omega, if_neg, ite_false]
          exact charListLeb_trans as bs cs h1 h2
        · simp [show ¬ b.toNat < c.toNat by omega, hbc] at h2
      · simp [show ¬ a.toNat < b.toNat by omega, hab] at h1

/-! ## Reachability machinery -/

/-- An invariant preserved by every customer-app step holds along every
run. -/
theorem runF_inv (P : FrontendState → Prop)
    (h : ∀ s e, P s → P (stepF s e)) :
    ∀ (evs : List FEvent) (s : FrontendState), P s → P (runF s evs)
  | [], _, hs => hs
  | e :: evs, s, hs => runF_inv P h evs (stepF s e) (h s e hs)

/-- An invariant preserved by every admin-app step holds along every
run. -/
theorem runA_inv (fb : Bool) (P : AdminState → Prop)
    (h : ∀ s e, P s → P (stepA fb s e)) :
    ∀ (evs : List AEvent) (s : AdminState), P s → P (runA fb s evs)
  | [], _, hs => hs
  | e :: evs, s, hs => runA_inv fb P h evs (stepA fb s e) (h s e hs)

/-- Customer app: one step preserves the ordering invariant that an open
subscription implies readiness. -/
theorem stepF_sub_auth (s : FrontendState) (e : FEvent)
    (h : s.subscribed = true → s.authReady = true) :
    (stepF s e).subscribed = true → (stepF s e).authReady = true := by
  cases e with
  | initConfigFail => intro _; rfl
  | initOk => exact h
  | authCb u => intro _; rfl
  | signInFail msg => intro _; rfl
  | effectRun =>
      simp only [stepF]
      split_ifs with hc
      · intro _
        exact hc.1
      · exact h
  | snapshot docs =>
      simp only [stepF]
      split_ifs with hc
      · intro _
        exact h hc
      · exact h
  | snapshotError =>
      simp only [stepF]
      split_ifs with hc
      · intro hfalse
        simp at hfalse
      · exact h

/-- Admin app: one step preserves the ordering invariant that an open
subscription implies readiness. -/
theorem stepA_sub_auth (fb : Bool) (s : AdminState) (e : AEvent)
    (h : s.subscribed = true → s.isAuthReady = true) :
    (stepA fb s e).subscribed = true → (stepA fb s e).isAuthReady = true := by
  cases e with
  | initErr msg dbSet => intro _; rfl
  | initOk => exact h
  | authUser uid => intro _; rfl
  | authNullReady => intro _; rfl
  | authSignInFail uid => intro _; rfl
  | effectRun =>
      simp only [stepA]
      split_ifs with hc
      · intro _
        exact hc.1
      · exact h
  | snapshot docs =>
      simp only [stepA]
      split_ifs with hc
      · intro _
        exact h hc
      · exact h
  | snapshotError msg =>
      simp only [stepA]
      split_ifs with hc
      · intro hfalse
        simp at hfalse
      · exact h
  | input de => exact h
  | submit res =>
      cases res with
      | success =>
          simp only [stepA, handleSubmit]
          split_ifs <;>
            first
              | exact h
              | (intro hfalse; exact hfalse.elim)
      | failure msg =>
          simp only [stepA, handleSubmit]
          split_ifs <;>
            first
              | exact h
              | (intro hfalse; exact hfalse.elim)

/-- Customer app: no event other than a successful initialization can set
the db handle or open a subscription. -/
theorem stepF_no_init (s : FrontendState) (e : FEvent)
    (h1 : s.dbInit = false) (h2 : s.subscribed = false)
    (he : e ≠ FEvent.initOk) :
    (stepF s e).dbInit = false ∧ (stepF s e).subscribed = false := by
  cases e with
  | initConfigFail => exact ⟨h1, h2⟩
  | initOk => exact absurd rfl he
  | authCb u => exact ⟨h1, h2⟩
  | signInFail msg => exact ⟨h1, h2⟩
  | effectRun =>
      simp only [stepF]
      rw [if_neg]
      · exact ⟨h1, h2⟩
      · intro hc
        rw [h1] at hc
        exact Bool.false_ne_true hc.2.1
  | snapshot docs =>
      simp only [stepF]
      rw [if_neg]
      · exact ⟨h1, h2⟩
      · intro hc
        rw [h2] at hc
        exact Bool.false_ne_true hc
  | snapshotError =>
      simp only [stepF]
      rw [if_neg]
      · exact ⟨h1, h2⟩
      · intro hc
        rw [h2] at hc
        exact Bool.false_ne_true hc

/-- Customer app: a run that never contains a successful initialization
leaves the db handle unset and the subscription closed. -/
theorem runF_no_init : ∀ (evs : List FEvent) (s : FrontendState),
    s.dbInit = false → s.subscribed = false →
    (∀ e ∈ evs, e ≠ FEvent.initOk) →
    (runF s evs).dbInit = false ∧ (runF s evs).subscribed = false
  | [], _, h1, h2, _ => ⟨h1, h2⟩
  | e :: evs, s, h1, h2, hmem => by
      obtain ⟨p1, p2⟩ := stepF_no_init s e h1 h2 (hmem e (List.mem_cons_self e evs))
      exact runF_no_init evs (stepF s e) p1 p2
        (fun x hx => hmem x (List.mem_cons_of_mem e hx))

/-- Customer app: no event ever clears the error state. -/
theorem stepF_error_persists (s : FrontendState) (e : FEvent)
    (h : s.error.isSome = true) : (stepF s e).error.isSome = true := by
  cases e with
  | initConfigFail => rfl
  | initOk => exact h
  | authCb u => exact h
  | signInFail msg => rfl
  | effectRun =>
      simp only [stepF]
      split_ifs <;> exact h
  | snapshot docs =>
      simp only [stepF]
      split_ifs <;> exact h
  | snapshotError =>
      simp only [stepF]
      split_ifs <;> first | rfl | exact h

/-- Customer app: one step preserves the invariant that an open
subscription implies the data-fetch effect already ran. -/
theorem stepF_sub_ever (s : FrontendState) (e : FEvent)
    (h : s.subscribed = true → s.everSubscribed = true) :
    (stepF s e).subscribed = true → (stepF s e).everSubscribed = true := by
  cases e with
  | initConfigFail => exact h
  | initOk => exact h
  | authCb u => exact h
  | signInFail msg => exact h
  | effectRun =>
      simp only [stepF]
      split_ifs with hc
      · intro _
        rfl
      · exact h
  | snapshot docs =>
      simp only [stepF]
      split_ifs <;> exact h
  | snapshotError =>
      simp only [stepF]
      split_ifs with hc
      · intro hfalse
        simp at hfalse
      · exact h

/-- Customer app: once the subscription is closed and the one-shot
data-fetch effect has already run, no event reopens it or changes the
rendered store list. -/
theorem stepF_final (s : FrontendState) (e : FEvent)
    (h1 : s.subscribed = false) (h2 : s.everSubscribed = true) :
    (stepF s e).subscribed = false ∧ (stepF s e).everSubscribed = true ∧
    (stepF s e).stores = s.stores := by
  cases e with
  | initConfigFail => exact ⟨h1, h2, rfl⟩
  | initOk => exact ⟨h1, h2, rfl⟩
  | authCb u => exact ⟨h1, h2, rfl⟩
  | signInFail msg => exact ⟨h1, h2, rfl⟩
  | effectRun =>
      simp only [stepF]
      rw [if_neg]
      · exact ⟨h1, h2, rfl⟩
      · intro hc
        rw [h2] at hc
        exact hc.2.2 rfl
  | snapshot docs =>
      simp only [stepF]
      rw [if_neg]
      · exact ⟨h1, h2, rfl⟩
      · intro hc
        rw [h1] at hc
        exact Bool.false_ne_true hc
  | snapshotError =>
      simp only [stepF]
      rw [if_neg]
      · exact ⟨h1, h2, rfl⟩
      · intro hc
        rw [h1] at hc
        exact Bool.false_ne_true hc

/-- Customer app: run-level version of stepF_final. -/
theorem runF_final : ∀ (evs : List FEvent) (s : FrontendState),
    s.subscribed = false → s.everSubscribed = true →
    (runF s evs).subscribed = false ∧ (runF s evs).everSubscribed = true ∧
    (runF s evs).stores = s.stores
  | [], _, h1, h2 => ⟨h1, h2, rfl⟩
  | e :: evs, s, h1, h2 => by
      obtain ⟨p1, p2, p3⟩ := stepF_final s e h1 h2
      obtain ⟨q1, q2, q3⟩ := runF_final evs (stepF s e) p1 p2
      exact ⟨q1, q2, q3.trans p3⟩

/-- Admin app: no event ever clears the error state (once set, handleSubmit
is blocked by its guard and setError(null) is unreachable). -/
theorem stepA_error_persists (fb : Bool) (s : AdminState) (e : AEvent)
    (h : s.error.isSome = true) : (stepA fb s e).error.isSome = true := by
  cases e with
  | initErr msg dbSet => rfl
  | initOk => exact h
  | authUser uid => exact h
  | authNullReady => exact h
  | authSignInFail uid => exact h
  | effectRun =>
      simp only [stepA]
      split_ifs <;> exact h
  | snapshot docs =>
      simp only [stepA]
      split_ifs <;> exact h
  | snapshotError msg =>
      simp only [stepA]
      split_ifs <;> first | rfl | exact h
  | input de => exact h
  | submit res =>
      have hnc : ¬ canWrite fb s := by
        intro hcw
        rw [hcw.2.2.2.2.1] at h
        simp at h
      simp only [stepA, handleSubmit, if_pos hnc]
      split_ifs
      · rfl
      · exact h

/-- Admin app: once the error state is set and the subscription closed, no
event reopens the subscription or changes the rendered product list. -/
theorem stepA_final (fb : Bool) (s : AdminState) (e : AEvent)
    (h1 : s.error.isSome = true) (h2 : s.subscribed = false) :
    (stepA fb s e).error.isSome = true ∧ (stepA fb s e).subscribed = false ∧
    (stepA fb s e).products = s.products := by
  cases e with
  | initErr msg dbSet => exact ⟨rfl, h2, rfl⟩
  | initOk => exact ⟨h1, h2, rfl⟩
  | authUser uid => exact ⟨h1, h2, rfl⟩
  | authNullReady => exact ⟨h1, h2, rfl⟩
  | authSignInFail uid => exact ⟨h1, h2, rfl⟩
  | effectRun =>
      simp only [stepA]
      rw [if_neg]
      · exact ⟨h1, h2, rfl⟩
      · intro hc
        rw [hc.2.2.2.1] at h1
        simp at h1
  | snapshot docs =>
      simp only [stepA]
      rw [if_neg]
      · exact ⟨h1, h2, rfl⟩
      · intro hc
        rw [h2] at hc
        exact Bool.false_ne_true hc
  | snapshotError msg =>
      simp only [stepA]
      rw [if_neg]
      · exact ⟨h1, h2, rfl⟩
      · intro hc
        rw [h2] at hc
        exact Bool.false_ne_true hc
  | input de => exact ⟨h1, h2, rfl⟩
  | submit res =>
      have hnc : ¬ canWrite fb s := by
        intro hcw
        rw [hcw.2.2.2.2.1] at h1
        simp at h1
      simp only [stepA, handleSubmit, if_pos hnc]
      split_ifs
      · exact ⟨rfl, rfl, rfl⟩
      · exact ⟨h1, h2, rfl⟩

/-- Admin app: run-level version of stepA_final. -/
theorem runA_final (fb : Bool) : ∀ (evs : List AEvent) (s : AdminState),
    s.error.isSome = true → s.subscribed = false →
    (runA fb s evs).error.isSome = true ∧ (runA fb s evs).subscribed = false ∧
    (runA fb s evs).products = s.products
  | [], _, h1, h2 => ⟨h1, h2, rfl⟩
  | e :: evs, s, h1, h2 => by
      obtain ⟨p1, p2, p3⟩ := stepA_final fb s e h1 h2
      obtain ⟨q1, q2, q3⟩ := runA_final fb evs (stepA fb s e) p1 p2
      exact ⟨q1, q2, q3.trans p3⟩

/-- Admin app under the fallback configuration: one step never issues an
addDoc call (handleSubmit returns in the mock-config guard). -/
theorem stepA_fallback_calls (s : AdminState) (e : AEvent)
    (h : s.calls = []) : (stepA true s e).calls = [] := by
  cases e with
  | initErr msg dbSet => exact h
  | initOk => exact h
  | authUser uid => exact h
  | authNullReady => exact h
  | authSignInFail uid => exact h
  | effectRun =>
      simp only [stepA]
      split_ifs <;> exact h
  | snapshot docs =>
      simp only [stepA]
      split_ifs <;> exact h
  | snapshotError msg =>
      simp only [stepA]
      split_ifs <;> exact h
  | input de => exact h
  | submit res =>
      have hnc : ¬ canWrite true s := by
        intro hcw
        exact Bool.false_ne_true hcw.2.2.2.2.2.symm
      simp only [stepA, handleSubmit, if_pos hnc]
      exact h

/-- Admin app under the fallback configuration: no run ever issues an
addDoc call. -/
theorem runA_fallback_calls (evs : List AEvent) :
    (runA true initA evs).calls = [] :=
  runA_inv true (fun s => s.calls = []) stepA_fallback_calls evs initA rfl

/-! ## Claims -/

/-- C1: for every received snapshot, the rendered item list is replaced
wholesale with exactly the snapshot's documents sorted by the defined
comparator — by name lexicographically in the customer app, by creation
time descending in the admin app — regardless of the previous local list
(no incremental merging): the post-snapshot list equals the sorted
snapshot, is the same from any two prior states, and is a sorted
permutation of the snapshot documents. -/
theorem c1_snapshot_full_replace (s1 s2 : FrontendState) (t1 t2 : AdminState)
    (fb : Bool) (ds : List StoreDoc) (dp : List ProductDoc)
    (hs1 : s1.subscribed = true) (hs2 : s2.subscribed = true)
    (ht1 : t1.subscribed = true) (ht2 : t2.subscribed = true) :
    (stepF s1 (.snapshot ds)).stores = sortStores ds ∧
    (stepF s2 (.snapshot ds)).stores = (stepF s1 (.snapshot ds)).stores ∧
    (sortStores ds).Perm ds ∧ List.Sorted storeOrder (sortStores ds) ∧
    (stepA fb t1 (.snapshot dp)).products = sortProducts dp ∧
    (stepA fb t2 (.snapshot dp)).products = (stepA fb t1 (.snapshot dp)).products ∧
    (sortProducts dp).Perm dp ∧ List.Sorted productOrder (sortProducts dp) := by
  haveI : IsTotal StoreDoc storeOrder := ⟨fun a b => charListLeb_total _ _⟩
  haveI : IsTrans StoreDoc storeOrder :=
    ⟨fun a b c h1 h2 => charListLeb_trans _ _ _ h1 h2⟩
  haveI : IsTotal ProductDoc productOrder :=
    ⟨fun a b => (le_total (productKey a) (productKey b)).symm⟩
  haveI : IsTrans ProductDoc productOrder := ⟨fun a b c h1 h2 => le_trans h2 h1⟩
  refine ⟨?_, ?_, List.perm_insertionSort _ _, List.sorted_insertionSort _ _,
    ?_, ?_, List.perm_insertionSort _ _, List.sorted_insertionSort _ _⟩
  · simp only [stepF, if_pos hs1]
  · simp only [stepF, if_pos hs1, if_pos hs2]
  · simp only [stepA, if_pos ht1]
  · simp only [stepA, if_pos ht1, if_pos ht2]

/-- C1 witness: instantiation at concrete subscribed states and the spec
scenario snapshot (Zeta Mart, Alpha Deli). -/
theorem c1_witness :
    fReady.subscribed = true ∧ aReady.subscribed = true ∧
    ((stepF fReady (.snapshot [storeZeta, storeAlpha])).stores =
        sortStores [storeZeta, storeAlpha] ∧
     (stepF fReady (.snapshot [storeZeta, storeAlpha])).stores =
        (stepF fReady (.snapshot [storeZeta, storeAlpha])).stores ∧
     (sortStores [storeZeta, storeAlpha]).Perm [storeZeta, storeAlpha] ∧
     List.Sorted storeOrder (sortStores [storeZeta, storeAlpha]) ∧
     (stepA false aReady (.snapshot [])).products = sortProducts [] ∧
     (stepA false aReady (.snapshot [])).products =
        (stepA false aReady (.snapshot [])).products ∧
     (sortProducts []).Perm [] ∧
     List.Sorted productOrder (sortProducts [])) :=
  ⟨by decide, by decide,
   c1_snapshot_full_replace fReady fReady aReady aReady false
     [storeZeta, storeAlpha] [] (by decide) (by decide) (by decide) (by decide)⟩

/-- C2: in every reachable state of either app in which a snapshot
listener is registered, the readiness flag has already been set to true:
the collection subscription is never opened before authReady /
isAuthReady. -/
theorem c2_subscribe_only_after_ready (evsF : List FEvent)
    (evsA : List AEvent) (fb : Bool) :
    ((runF initF evsF).subscribed = true → (runF initF evsF).authReady = true) ∧
    ((runA fb initA evsA).subscribed = true →
        (runA fb initA evsA).isAuthReady = true) :=
  ⟨runF_inv (fun s => s.subscribed = true → s.authReady = true)
      stepF_sub_auth evsF initF (fun hs => absurd hs Bool.false_ne_true),
   runA_inv fb (fun s => s.subscribed = true → s.isAuthReady = true)
      (stepA_sub_auth fb) evsA initA (fun hs => absurd hs Bool.false_ne_true)⟩

/-- C2 witness: instantiation at concrete startup traces that do open the
subscription. -/
theorem c2_witness :
    fReady.authReady = true ∧ aReady.isAuthReady = true :=
  ⟨(c2_subscribe_only_after_ready
      [FEvent.initOk, FEvent.authCb (some "u1"), FEvent.effectRun]
      [AEvent.initOk, AEvent.authUser "admin-1", AEvent.effectRun] false).1
      (by decide),
   (c2_subscribe_only_after_ready
      [FEvent.initOk, FEvent.authCb (some "u1"), FEvent.effectRun]
      [AEvent.initOk, AEvent.authUser "admin-1", AEvent.effectRun] false).2
      (by decide)⟩

/-- C3: in the admin app, submitting a valid draft (non-empty name,
positive price) once from a writable state, with the external addDoc call
succeeding, issues exactly one addDoc call and resets the draft to its
empty defaults (empty name, empty description, price 0, default
category). -/
theorem c3_valid_submit_success (s : AdminState) (uid : String)
    (hcw : canWrite false s) (huid : s.userId = some uid)
    (hname : s.newProduct.name ≠ "") (hprice : 0 < s.newProduct.price) :
    (stepA false s (.submit .success)).calls =
      s.calls ++ [mkPayload s.newProduct uid] ∧
    (stepA false s (.submit .success)).newProduct = emptyDraft := by
  have hval : ¬ (s.newProduct.name = "" ∨ s.newProduct.price ≤ 0) :=
    not_or.mpr ⟨hname, not_le.mpr hprice⟩
  refine ⟨?_, ?_⟩ <;>
    simp [stepA, handleSubmit, if_neg (not_not_intro hcw), if_neg hval, huid]

/-- C3 witness: instantiation at a concrete writable state holding a valid
draft. -/
theorem c3_witness :
    canWrite false aDraftReady ∧ aDraftReady.userId = some "admin-1" ∧
    aDraftReady.newProduct.name ≠ "" ∧ 0 < aDraftReady.newProduct.price ∧
    ((stepA false aDraftReady (.submit .success)).calls =
        aDraftReady.calls ++ [mkPayload aDraftReady.newProduct "admin-1"] ∧
     (stepA false aDraftReady (.submit .success)).newProduct = emptyDraft) :=
  ⟨by decide, by decide, by decide, by decide,
   c3_valid_submit_success aDraftReady "admin-1"
     (by decide) (by decide) (by decide) (by decide)⟩

/-- C4: in the admin app, invoking submit on a draft whose name is empty
or whose price is not strictly positive never issues an addDoc call, in
any state and under any configuration; when the state would otherwise
permit a write, the rejection is the local validation error message. -/
theorem c4_invalid_draft_no_write (fb : Bool) (s : AdminState)
    (res : SubmitRes)
    (hinv : s.newProduct.name = "" ∨ s.newProduct.price ≤ 0) :
    (stepA fb s (.submit res)).calls = s.calls ∧
    (canWrite fb s →
        (stepA fb s (.submit res)).error = some validationMsg) := by
  by_cases hcw : canWrite fb s
  · refine ⟨?_, fun _ => ?_⟩ <;>
      simp [stepA, handleSubmit, if_neg (not_not_intro hcw), if_pos hinv]
  · refine ⟨?_, fun h => absurd h hcw⟩
    simp only [stepA, handleSubmit, if_pos hcw]
    split_ifs
    · rfl
    · rfl

/-- C4 witness: instantiation at a concrete writable state holding an
empty-name draft. -/
theorem c4_witness :
    (aDraftInvalid.newProduct.name = "" ∨ aDraftInvalid.newProduct.price ≤ 0) ∧
    ((stepA false aDraftInvalid (.submit .success)).calls =
        aDraftInvalid.calls ∧
     (canWrite false aDraftInvalid →
        (stepA false aDraftInvalid (.submit .success)).error =
          some validationMsg)) :=
  ⟨by decide,
   c4_invalid_draft_no_write false aDraftInvalid .success (by decide)⟩

/-- C9: in the admin app, when the external addDoc call of a valid
submission fails, the external error message is surfaced verbatim inside
the failure message alongside the check-your-rules hint, the draft is left
unchanged for retry, and the submitting flag is reset. -/
theorem c9_write_failure_preserves_draft (s : AdminState) (msg : String)
    (hcw : canWrite false s)
    (hname : s.newProduct.name ≠ "") (hprice : 0 < s.newProduct.price) :
    (stepA false s (.submit (.failure msg))).error =
      some ("Failed to add product: " ++ msg ++ ". Check your Firebase rules.") ∧
    (stepA false s (.submit (.failure msg))).newProduct = s.newProduct ∧
    (stepA false s (.submit (.failure msg))).isSubmitting = false := by
  have hval : ¬ (s.newProduct.name = "" ∨ s.newProduct.price ≤ 0) :=
    not_or.mpr ⟨hname, not_le.mpr hprice⟩
  refine ⟨?_, ?_, ?_⟩ <;>
    simp [stepA, handleSubmit, if_neg (not_not_intro hcw), if_neg hval]

/-- C9 witness: instantiation at a concrete writable state with a failing
external call. -/
theorem c9_witness :
    canWrite false aDraftReady ∧ aDraftReady.newProduct.name ≠ "" ∧
    0 < aDraftReady.newProduct.price ∧
    ((stepA false aDraftReady (.submit (.failure "permission-denied"))).error =
        some ("Failed to add product: " ++ "permission-denied" ++
          ". Check your Firebase rules.") ∧
     (stepA false aDraftReady (.submit (.failure "permission-denied"))).newProduct =
        aDraftReady.newProduct ∧
     (stepA false aDraftReady (.submit (.failure "permission-denied"))).isSubmitting =
        false) :=
  ⟨by decide, by decide, by decide,
   c9_write_failure_preserves_draft aDraftReady "permission-denied"
     (by decide) (by decide) (by decide)⟩

/-- C10: every document created by a successful admin submission carries
the draft fields (name, description, price coerced to two decimals,
category), the server-assigned creation timestamp sentinel and the creator
identity, and additionally a field available set to true. -/
theorem c10_created_document_fields (s : AdminState) (uid : String)
    (hcw : canWrite false s) (huid : s.userId = some uid)
    (hname : s.newProduct.name ≠ "") (hprice : 0 < s.newProduct.price) :
    ∃ p : Payload,
      (stepA false s (.submit .success)).calls = s.calls ++ [p] ∧
      p.name = s.newProduct.name ∧ p.description = s.newProduct.description ∧
      p.price = round2 s.newProduct.price ∧
      p.category = s.newProduct.category ∧
      p.createdAtIsServerTimestamp = true ∧ p.createdBy = uid ∧
      p.available = true := by
  have hval : ¬ (s.newProduct.name = "" ∨ s.newProduct.price ≤ 0) :=
    not_or.mpr ⟨hname, not_le.mpr hprice⟩
  refine ⟨mkPayload s.newProduct uid, ?_, rfl, rfl, rfl, rfl, rfl, rfl, rfl⟩
  simp [stepA, handleSubmit, if_neg (not_not_intro hcw), if_neg hval, huid]

/-- C10 witness: instantiation at a concrete writable state holding a
valid draft. -/
theorem c10_witness :
    canWrite false aDraftReady ∧ aDraftReady.userId = some "admin-1" ∧
    aDraftReady.newProduct.name ≠ "" ∧ 0 < aDraftReady.newProduct.price ∧
    (∃ p : Payload,
      (stepA false aDraftReady (.submit .success)).calls =
        aDraftReady.calls ++ [p] ∧
      p.name = aDraftReady.newProduct.name ∧
      p.description = aDraftReady.newProduct.description ∧
      p.price = round2 aDraftReady.newProduct.price ∧
      p.category = aDraftReady.newProduct.category ∧
      p.createdAtIsServerTimestamp = true ∧ p.createdBy = "admin-1" ∧
      p.available = true) :=
  ⟨by decide, by decide, by decide, by decide,
   c10_created_document_fields aDraftReady "admin-1"
     (by decide) (by decide) (by decide) (by decide)⟩

/-- C5 counterexample: a sign-in (network) failure during the customer
app's authentication bootstrap sets the terminal error state, yet the
collection subscription still opens afterwards — the data-fetch guard
checks only authReady and the db handle (both set on this path), not the
error state, refuting the claim that the subscription is never opened
after such a failure. -/
theorem c5_counterexample :
    (runF initF [FEvent.initOk, FEvent.signInFail "network error",
        FEvent.effectRun]).error.isSome = true ∧
    (runF initF [FEvent.initOk, FEvent.signInFail "network error",
        FEvent.effectRun]).subscribed = true := by
  decide

/-- C5 (amended): any bootstrap failure in the customer app sets the
application-level error state, and the error state is terminal for the
session (no event ever clears it); a configuration failure, which occurs
before the database handle is set, additionally guarantees that the
collection subscription is never opened — but after a sign-in failure
that follows a successful initialization the subscription may still
open. -/
theorem c5_amended_bootstrap_failure :
    (∀ (s : FrontendState) (msg : String),
        (stepF s (.signInFail msg)).error.isSome = true ∧
        (stepF s .initConfigFail).error.isSome = true) ∧
    (∀ evs : List FEvent, (∀ e ∈ evs, e ≠ FEvent.initOk) →
        (runF initF evs).subscribed = false) ∧
    (∀ (s : FrontendState) (evs : List FEvent), s.error.isSome = true →
        (runF s evs).error.isSome = true) :=
  ⟨fun _ _ => ⟨rfl, rfl⟩,
   fun evs h => (runF_no_init evs initF rfl rfl h).2,
   fun s evs h =>
     runF_inv (fun t => t.error.isSome = true) stepF_error_persists evs s h⟩

/-- C5 witness: instantiation at a concrete configuration-failure trace
and a concrete post-failure state. -/
theorem c5_witness :
    (runF initF [FEvent.initConfigFail, FEvent.effectRun]).subscribed = false ∧
    (runF (stepF initF FEvent.initConfigFail)
        [FEvent.authCb none]).error.isSome = true :=
  ⟨c5_amended_bootstrap_failure.2.1
      [FEvent.initConfigFail, FEvent.effectRun] (by decide),
   c5_amended_bootstrap_failure.2.2
      (stepF initF FEvent.initConfigFail) [FEvent.authCb none] (by decide)⟩

/-- C6: in the admin app under the placeholder/mock (fallback) backend
configuration, the submit button's disabled attribute is true in every
reachable state regardless of draft content, and no addDoc call is ever
issued over the whole app lifetime. -/
theorem c6_mock_config_read_only (evs : List AEvent) :
    submitDisabled true (runA true initA evs) = true ∧
    (runA true initA evs).calls = [] :=
  ⟨by simp [submitDisabled], runA_fallback_calls evs⟩

/-- C7: in both apps, when the subscription's error callback fires, the UI
enters the error state with the human-readable message referencing
Firestore-rules verification, the loading flag becomes false, and the
error state is final: no later event sequence changes the rendered list or
clears the error (no retry). -/
theorem c7_subscription_error_terminal (evs0 : List FEvent) (fb : Bool)
    (evsA0 : List AEvent) (msg : String)
    (hf : (runF initF evs0).subscribed = true)
    (ha : (runA fb initA evsA0).subscribed = true) :
    frontErrOutcome evs0 ∧ adminErrOutcome fb evsA0 msg := by
  constructor
  · have hever : (runF initF evs0).everSubscribed = true :=
      runF_inv (fun s => s.subscribed = true → s.everSubscribed = true)
        stepF_sub_ever evs0 initF (fun hs => absurd hs Bool.false_ne_true) hf
    have hE : afterErrF evs0 =
        { runF initF evs0 with
          error := some "Failed to fetch store catalog. Check Firestore Rules.",
          isLoading := false, subscribed := false } := by
      simp only [afterErrF, stepF, if_pos hf]
    refine ⟨by rw [hE], by rw [hE], fun evs => ?_⟩
    obtain ⟨q1, q2, q3⟩ := runF_final evs (afterErrF evs0)
      (by rw [hE]) (by rw [hE]; exact hever)
    exact ⟨q3, runF_inv (fun t => t.error.isSome = true) stepF_error_persists
      evs (afterErrF evs0) (by rw [hE]; rfl)⟩
  · have hE : afterErrA fb evsA0 msg =
        { runA fb initA evsA0 with
          error := some ("Real-time data error: " ++ msg ++
            ". Please verify Firestore rules."),
          loading := false, subscribed := false } := by
      simp only [afterErrA, stepA, if_pos ha]
    refine ⟨by rw [hE], by rw [hE], fun evs => ?_⟩
    obtain ⟨q1, q2, q3⟩ := runA_final fb evs (afterErrA fb evsA0 msg)
      (by rw [hE]; rfl) (by rw [hE])
    exact ⟨q3, q1⟩

/-- C7 witness: instantiation at concrete subscribed startup traces and a
concrete subscription-error message. -/
theorem c7_witness :
    (runF initF [FEvent.initOk, FEvent.authCb (some "u2"),
        FEvent.effectRun]).subscribed = true ∧
    (runA false initA [AEvent.initOk, AEvent.authUser "admin-2",
        AEvent.effectRun]).subscribed = true ∧
    (frontErrOutcome [FEvent.initOk, FEvent.authCb (some "u2"),
        FEvent.effectRun] ∧
     adminErrOutcome false [AEvent.initOk, AEvent.authUser "admin-2",
        AEvent.effectRun] "permission denied") :=
  ⟨by decide, by decide,
   c7_subscription_error_terminal
     [FEvent.initOk, FEvent.authCb (some "u2"), FEvent.effectRun] false
     [AEvent.initOk, AEvent.authUser "admin-2", AEvent.effectRun]
     "permission denied" (by decide) (by decide)⟩

/-- C8 counterexample: with a real (non-fallback) configuration, after the
authentication attempt fails and the placeholder identity is substituted,
a valid draft can still be submitted and an addDoc call is issued carrying
the placeholder identity as creator — refuting the claim that the app
downgrades to read-only mode so that no create-document call can be issued
under the placeholder identity. -/
theorem c8_counterexample :
    ((runA false initA [AEvent.initOk, AEvent.authSignInFail "placeholder-uid",
        AEvent.input (DraftEdit.name "Burger"),
        AEvent.input (DraftEdit.price 5),
        AEvent.submit SubmitRes.success]).calls.map Payload.createdBy =
      ["placeholder-uid"]) ∧
    (runA false initA [AEvent.initOk, AEvent.authSignInFail "placeholder-uid",
        AEvent.input (DraftEdit.name "Burger"),
        AEvent.input (DraftEdit.price 5),
        AEvent.submit SubmitRes.success]).calls.length = 1 := by
  decide

/-- C8 (amended): when the authentication attempt fails, the admin app
substitutes the locally generated placeholder identity and reports ready
instead of entering the error state; read-only mode, under which no addDoc
call is ever issued, is determined solely by the fallback/mock
configuration — under a real configuration an addDoc call can still be
issued under the placeholder identity. -/
theorem c8_amended_placeholder_identity :
    (∀ (fb : Bool) (s : AdminState) (uid : String),
        (stepA fb s (.authSignInFail uid)).userId = some uid ∧
        (stepA fb s (.authSignInFail uid)).isAuthReady = true ∧
        (stepA fb s (.authSignInFail uid)).error = s.error) ∧
    (∀ evs : List AEvent, (runA true initA evs).calls = []) ∧
    ((runA false initA [AEvent.initOk, AEvent.authSignInFail "placeholder-uid",
        AEvent.input (DraftEdit.name "Burger"),
        AEvent.input (DraftEdit.price 5),
        AEvent.submit SubmitRes.success]).calls.map Payload.createdBy =
      ["placeholder-uid"]) :=
  ⟨fun _ _ _ => ⟨rfl, rfl, rfl⟩, runA_fallback_calls, by decide⟩

end FreshEats
